import Mathlib

/-!
Shallow embedding of the Multi-Agent RFP Response application (src/app.py).

The application is a Streamlit script.  We embed the parts of it that carry
logic: the model-call adapter (create_agent / run_agent), the document text
extractor (extract_text_from_pdf / extract_text_from_docx and the plain-text
upload branch), the heuristic field-extraction parser of the
"Use These Extracted Details" button, the competitor-list operations, and the
three pipeline-stage button handlers (scope analysis, proposal generation,
refinement) together with their tab-level precondition gates.

Modelling conventions:
* Streamlit session state becomes an explicit `SessionState` record that each
  handler consumes and returns.
* `st.error` / `st.warning` / `st.success` calls are collected in a
  `displayed` list of strings.
* A Python exception that escapes the handler is modelled as
  `raised = some msg` (session-state mutations made before the raise are kept,
  as Streamlit keeps them).
* The ChatOpenAI client is modelled by the function `Env.invoke` from the
  message list to `Except String String`: `Except.ok r` is a reply with
  content `r`, `Except.error e` is an exception raised by `llm.invoke`.
* Python truthiness of an optional string (None and "" are falsy) is
  `pyTruthy`; `os.getenv("OPENAI_API_KEY")` is `Env.api_key`.
* The number of request/response exchanges a handler performs is counted in
  `calls`; the byte-for-byte contents offered by download buttons are
  collected in `exports`.
-/

namespace RfpApp

/-- The apostrophe character as a string (used inside message texts). -/
def sq : String := (Char.ofNat 39).toString

/-- Python `str.upper()` restricted to the ASCII inputs the parser sees. -/
def pyUpper (s : String) : String := (s.toList.map Char.toUpper).asString

/-- Python `str.lower()` restricted to ASCII inputs. -/
def pyLower (s : String) : String := (s.toList.map Char.toLower).asString

/-- Whether `p` is a prefix of `s` (character lists). -/
def startsWithChars : List Char → List Char → Bool
  | [], _ => true
  | _ :: _, [] => false
  | p :: ps, c :: cs => p == c && startsWithChars ps cs

/-- Whether `pat` occurs as a contiguous substring of the character list. -/
def containsChars (pat : List Char) : List Char → Bool
  | [] => startsWithChars pat []
  | c :: cs => startsWithChars pat (c :: cs) || containsChars pat cs

/-- Python `pat in s` on strings (substring containment). -/
def pyIn (pat s : String) : Bool := containsChars pat.toList s.toList

/-- Helper for `pySplitNl`: accumulates the current line (reversed). -/
def splitNlAux (cur : List Char) : List Char → List (List Char)
  | [] => [cur.reverse]
  | c :: cs =>
    if c == '\n' then cur.reverse :: splitNlAux [] cs else splitNlAux (c :: cur) cs

/-- Python `s.split('\n')`: e.g. the empty string yields `[""]`. -/
def pySplitNl (s : String) : List String := (splitNlAux [] s.toList).map List.asString

/-- Python `', '.join(l)`. -/
def pyCommaJoin : List String → String
  | [] => ""
  | x :: xs => xs.foldl (fun a b => a ++ ", " ++ b) x

/-- Python truthiness of a value that is either a string or None. -/
def pyTruthy : Option String → Bool
  | none => false
  | some s => s != ""

/-- Rendering of an optional string inside a Python f-string
(`None` renders as the text "None"). -/
def pyStr : Option String → String
  | none => "None"
  | some s => s

/-- Decode one UTF-8 scalar from byte `b` followed by `rest`, as Python's
strict "utf-8" codec does (overlong encodings, surrogates and values above
U+10FFFF are rejected).  Returns the code point and the remaining bytes. -/
def utf8DecodeOne (b : Nat) (rest : List Nat) : Option (Nat × List Nat) :=
  let cont : Nat → Bool := fun x => 0x80 ≤ x && x ≤ 0xBF
  if b ≤ 0x7F then some (b, rest)
  else if b ≤ 0xC1 then none
  else if b ≤ 0xDF then
    match rest with
    | b2 :: r => if cont b2 then some ((b - 0xC0) * 0x40 + (b2 - 0x80), r) else none
    | [] => none
  else if b ≤ 0xEF then
    match rest with
    | b2 :: b3 :: r =>
      let lo := if b == 0xE0 then 0xA0 else 0x80
      let hi := if b == 0xED then 0x9F else 0xBF
      if (lo ≤ b2 && b2 ≤ hi) && cont b3 then
        some ((b - 0xE0) * 0x1000 + (b2 - 0x80) * 0x40 + (b3 - 0x80), r)
      else none
    | _ => none
  else if b ≤ 0xF4 then
    match rest with
    | b2 :: b3 :: b4 :: r =>
      let lo := if b == 0xF0 then 0x90 else 0x80
      let hi := if b == 0xF4 then 0x8F else 0xBF
      if (lo ≤ b2 && b2 ≤ hi) && cont b3 && cont b4 then
        some ((b - 0xF0) * 0x40000 + (b2 - 0x80) * 0x1000 + (b3 - 0x80) * 0x40 + (b4 - 0x80), r)
      else none
    | _ => none
  else none

/-- Fuelled decoding loop; each step consumes at least one byte, so fuel equal
to the byte count always suffices. -/
def utf8DecodeLoop : Nat → List Nat → Option (List Char)
  | _, [] => some []
  | 0, _ :: _ => none
  | fuel + 1, b :: rest =>
    match utf8DecodeOne b rest with
    | none => none
    | some (code, r) =>
      match utf8DecodeLoop fuel r with
      | none => none
      | some cs => some (Char.ofNat code :: cs)

/-- Python `bytes.decode("utf-8")`: `some` the decoded text, `none` when the
codec raises UnicodeDecodeError. -/
def pyDecodeUtf8 (bs : List Nat) : Option String :=
  (utf8DecodeLoop bs.length bs).map List.asString

/-- One chat message, as built by the app (a system message carrying the
instruction, or a human message carrying the user content). -/
inductive Message where
  | system (content : String)
  | human (content : String)
deriving DecidableEq

/-- The behaviour of `ChatOpenAI(...).invoke`: a reply text, or an exception
(message) raised during the request/response exchange. -/
def LLMModel : Type := List Message → Except String String

/-- The process environment of one user action: the credential visible to
`os.getenv("OPENAI_API_KEY")` and the model endpoint behaviour. -/
structure Env where
  api_key : Option String
  invoke : LLMModel

/-- The `st.session_state.company_details` dict, modelled with its five keys
always present (as after the Manual Entry form has rendered); a key that the
dict lacks is modelled as the empty string. -/
structure CompanyDetails where
  company_name : String
  industry_focus : String
  key_strengths : String
  past_case_studies : String
  unique_selling_points : String
deriving DecidableEq

/-- The Streamlit session state.  `scope_analysis` starts as the falsy `{}`
(modelled `none`) and is later assigned the result of `run_agent` (a string,
or None on failure); `winning_proposal` starts as `""` (modelled `some ""`)
and may likewise become None. -/
structure SessionState where
  company_details : CompanyDetails
  rfp_content : String
  scope_analysis : Option String
  winning_proposal : Option String
  competitors : List String
  company_info_extracted : Bool
  extracted_company_details : Option String
deriving DecidableEq

/-- The error message `create_agent` displays when the credential is absent. -/
def apiKeyErrorMsg : String :=
  "OpenAI API key is not set. Please configure it in the sidebar."

/-- The Python error raised by `llm, messages = create_agent(...)` when
`create_agent` returned None. -/
def typeErrorUnpackNone : String :=
  "TypeError: cannot unpack non-iterable NoneType object"

/-- Embedding of `create_agent(system_prompt)`: when the credential is absent
(unset or empty, both falsy to `os.getenv` truthiness) it shows an error and
returns None; otherwise it returns the ChatOpenAI client together with the
one-element message list holding the system prompt.  The second component is
the list of messages displayed. -/
def create_agent (env : Env) (system_prompt : String) :
    Option (LLMModel × List Message) × List String :=
  if !pyTruthy env.api_key then
    (none, [apiKeyErrorMsg])
  else
    (some (env.invoke, [Message.system system_prompt]), [])

/-- Result of one `run_agent` call: `messages` is the caller's message list
after the call (the source mutates it in place via `messages.append`),
`result` is the returned value (None on failure), `displayed` the error
messages shown. -/
structure AgentRun where
  messages : List Message
  result : Option String
  displayed : List String
deriving DecidableEq

/-- Embedding of `run_agent(llm, messages, user_content)`: appends the human
message to the caller's list (an in-place mutation in the source), performs
exactly one `llm.invoke` exchange on the extended list, and returns the reply
content, or — when the exchange raises — shows an error and returns None. -/
def run_agent (llm : LLMModel) (messages : List Message) (user_content : String) :
    AgentRun :=
  let msgs := messages ++ [Message.human user_content]
  match llm msgs with
  | Except.ok content => { messages := msgs, result := some content, displayed := [] }
  | Except.error e =>
      { messages := msgs, result := none,
        displayed := ["Error calling the LLM: " ++ e] }

/-- Embedding of `extract_text_from_pdf`: the argument is the outcome of
`pypdf.PdfReader` page extraction — `Except.ok pages` the per-page texts in
page order, `Except.error e` a parse failure.  Returns the extracted text and
the error messages displayed; it never raises. -/
def extract_text_from_pdf (parsed : Except String (List String)) :
    String × List String :=
  match parsed with
  | Except.ok pages => (pages.foldl (fun t p => t ++ p) "", [])
  | Except.error e => ("", ["Error reading PDF: " ++ e])

/-- Embedding of `extract_text_from_docx`: `Except.ok paras` the paragraph
texts in document order (a newline is appended after each), `Except.error e`
a parse failure.  Never raises. -/
def extract_text_from_docx (parsed : Except String (List String)) :
    String × List String :=
  match parsed with
  | Except.ok paras => (paras.foldl (fun t p => t ++ p ++ "\n") "", [])
  | Except.error e => ("", ["Error reading DOCX: " ++ e])

/-- An uploaded RFP document, dispatched on its declared media type: a PDF or
DOCX parse outcome, or the raw bytes of a plain-text file. -/
inductive UploadedDoc where
  | pdf (parsed : Except String (List String))
  | docx (parsed : Except String (List String))
  | plain (bytes : List Nat)

/-- Outcome of one user-triggered action: the session state afterwards, the
messages displayed, an uncaught Python exception if one escaped, the number of
model exchanges performed, and the contents offered for download. -/
structure StepResult where
  state : SessionState
  displayed : List String
  raised : Option String
  calls : Nat
  exports : List String
deriving DecidableEq

/-- Success banner of the RFP upload handler. -/
def uploadSuccessMsg (t : String) : String :=
  "RFP document uploaded successfully! Extracted " ++ toString t.length ++
    " characters."

/-- Embedding of the RFP-document upload handler (the media-type dispatch that
assigns `st.session_state.rfp_content`).  The PDF and DOCX branches go through
the extractors, which never raise; the plain-text branch decodes the raw bytes
as UTF-8 with no exception handler, so a decode failure raises to the top
level (and `rfp_content` keeps its prior value). -/
def rfpUploadStep (doc : UploadedDoc) (s : SessionState) : StepResult :=
  match doc with
  | UploadedDoc.pdf parsed =>
      let r := extract_text_from_pdf parsed
      { state := { s with rfp_content := r.1 },
        displayed := r.2 ++ [uploadSuccessMsg r.1],
        raised := none, calls := 0, exports := [] }
  | UploadedDoc.docx parsed =>
      let r := extract_text_from_docx parsed
      { state := { s with rfp_content := r.1 },
        displayed := r.2 ++ [uploadSuccessMsg r.1],
        raised := none, calls := 0, exports := [] }
  | UploadedDoc.plain bytes =>
      match pyDecodeUtf8 bytes with
      | some t =>
          { state := { s with rfp_content := t },
            displayed := [uploadSuccessMsg t],
            raised := none, calls := 0, exports := [] }
      | none =>
          { state := s, displayed := [],
            raised := some "UnicodeDecodeError", calls := 0, exports := [] }

/-- Section tag assigned to a line by the elif chain of the
"Use These Extracted Details" parser: the first matching keyword group wins
(strengths/capabilities, then case studies/references, then unique
selling/USP, then industry/expertise); `none` when the line matches no
group. -/
def lineSection (line : String) : Option String :=
  let u := pyUpper line
  if pyIn "STRENGTHS" u || pyIn "CAPABILITIES" u then some "strengths"
  else if pyIn "CASE STUDIES" u || pyIn "REFERENCES" u then some "case_studies"
  else if pyIn "UNIQUE SELLING" u || pyIn "USP" u then some "usps"
  else if pyIn "INDUSTRY" u || pyIn "EXPERTISE" u then some "industry"
  else none

/-- The else branch of the parser: appends the line (newline-terminated) to
the profile field named by the current section tag; with no section set yet
(the initial `""` tag) the line is dropped. -/
def appendToSection (cd : CompanyDetails) (cur line : String) : CompanyDetails :=
  if cur == "strengths" then
    { cd with key_strengths := cd.key_strengths ++ line ++ "\n" }
  else if cur == "case_studies" then
    { cd with past_case_studies := cd.past_case_studies ++ line ++ "\n" }
  else if cur == "usps" then
    { cd with unique_selling_points := cd.unique_selling_points ++ line ++ "\n" }
  else if cur == "industry" then
    { cd with industry_focus := cd.industry_focus ++ line ++ "\n" }
  else cd

/-- One iteration of the parser loop: a header line only switches the current
section; any other line is appended to the field of the current section. -/
def applyLine (p : CompanyDetails × String) (line : String) :
    CompanyDetails × String :=
  match lineSection line with
  | some sec => (p.1, sec)
  | none => (appendToSection p.1 p.2 line, p.2)

/-- Embedding of the "Use These Extracted Details" handler body: splits the
AI-extracted blob on newlines and folds the line scanner over it, starting
with the empty current-section tag. -/
def useExtractedDetails (cd : CompanyDetails) (extracted_info : String) :
    CompanyDetails :=
  ((pySplitNl extracted_info).foldl applyLine (cd, "")).1

/-- Embedding of the "➕ Add Competitor" button: appends one empty slot. -/
def addCompetitor (competitors : List String) : List String := competitors ++ [""]

/-- Embedding of the "❌" remove button: the button is rendered only for the
indices `i` with `0 < i < length` (index 0 has no remove button), and pressing
it pops exactly that element; for any other index no operation is offered,
modelled as the identity. -/
def removeCompetitor (competitors : List String) (i : Nat) : List String :=
  if 0 < i ∧ i < competitors.length then competitors.eraseIdx i else competitors

/-- System prompt of the AI company-details extraction (`extract_company_details`). -/
def extractionSystemPrompt : String := String.intercalate "\n" [
  "You are an expert business analyst specializing in company profiling and competitive intelligence. ",
  "    Your task is to analyze the provided company information and extract structured details including:",
  "    ",
  "    1. COMPANY STRENGTHS & CAPABILITIES:",
  "       - Technical expertise and specializations",
  "       - Key personnel strengths",
  "       - Infrastructure capabilities",
  "       - Process methodologies",
  "       - Quality assurance practices",
  "    ",
  "    2. CASE STUDIES & REFERENCES:",
  "       - Successful project examples",
  "       - Client testimonials and results",
  "       - Industry-specific experience",
  "       - Performance metrics and achievements",
  "    ",
  "    3. UNIQUE SELLING POINTS (USPs):",
  "       - Competitive differentiators",
  "       - Innovative approaches",
  "       - Unique methodologies",
  "       - Special certifications or awards",
  "       - Proprietary technologies",
  "    ",
  "    4. INDUSTRY EXPERTISE:",
  "       - Specific industry verticals",
  "       - Domain knowledge",
  "       - Regulatory compliance expertise",
  "       - Market recognition",
  "    ",
  "    Format your response in clear, structured sections that can be directly used in RFP responses.",
  "    Focus on quantifiable achievements and specific capabilities that would be compelling in a proposal."]

/-- System prompt of stage 1 (the seven-category RFP scope breakdown). -/
def agent2SystemPrompt : String := String.intercalate "\n" [
  "You are an expert RFP analyst. Your task is to thoroughly analyze RFP documents and break down the complete scope into structured categories. ",
  "                You must identify and categorize all requirements, timelines, evaluation criteria, and submission instructions.",
  "                ",
  "                Provide your analysis in the following structured format:",
  "                ",
  "                FUNCTIONAL REQUIREMENTS:",
  "                - List all functional requirements clearly",
  "                - Group related requirements",
  "                - Identify mandatory vs optional requirements",
  "                ",
  "                NON-FUNCTIONAL REQUIREMENTS:",
  "                - Performance requirements",
  "                - Security requirements",
  "                - Scalability requirements",
  "                - Compliance requirements",
  "                - Technical constraints",
  "                ",
  "                PURPOSE & OBJECTIVES:",
  "                - Main business objectives",
  "                - Expected outcomes",
  "                - Success criteria",
  "                ",
  "                SCOPE SUMMARY:",
  "                - Overall project scope",
  "                - In-scope items",
  "                - Out-of-scope items (if mentioned)",
  "                - Deliverables",
  "                ",
  "                TIMELINES & MILESTONES:",
  "                - Key deadlines",
  "                - Project timeline",
  "                - Milestone dates",
  "                - Submission deadlines",
  "                ",
  "                SUBMISSION INSTRUCTIONS:",
  "                - Format requirements",
  "                - Required sections",
  "                - Documentation needed",
  "                - Submission process",
  "                ",
  "                PROPOSAL EVALUATION CRITERIA:",
  "                - Scoring methodology",
  "                - Weightage of different sections",
  "                - Key evaluation factors",
  "                - Decision criteria"]

/-- The company-details block fed to stage 2: the AI-extracted profile when
one was produced and the extraction flag is set, otherwise the f-string built
from the manual form fields (a key the dict lacks is modelled as ""). -/
def companyDetailsToUse (s : SessionState) : String :=
  match s.extracted_company_details with
  | some ecd => if s.company_info_extracted then ecd else manualFallback s.company_details
  | none => manualFallback s.company_details
where
  manualFallback (cd : CompanyDetails) : String :=
    "\n            Company Name: " ++ cd.company_name ++
    "\n            Industry Focus: " ++ cd.industry_focus ++
    "\n            Key Strengths: " ++ cd.key_strengths ++
    "\n            Unique Selling Points: " ++ cd.unique_selling_points ++
    "\n            Past Case Studies: " ++ cd.past_case_studies ++
    "\n            "

/-- System prompt of stage 2, an f-string interpolating the company name, the
lower-cased tone, the emphasis areas, and the non-empty competitors. -/
def agent3SystemPrompt (proposal_tone : String) (emphasis_areas : List String)
    (s : SessionState) : String := String.intercalate "\n" [
  "You are a top-tier proposal writer specializing in creating winning RFP responses. Your task is to create a compelling, professional proposal that highlights the client" ++ sq ++ "s strengths and addresses all RFP requirements while differentiating from competitors.",
  "",
  "                Guidelines:",
  "                1. Create a comprehensive, well-structured proposal",
  "                2. Emphasize " ++ s.company_details.company_name ++ sq ++ "s strengths and relevant experience",
  "                3. Address all functional and non-functional requirements from the RFP",
  "                4. Use a " ++ pyLower proposal_tone ++ " tone throughout",
  "                5. Highlight these key areas: " ++ pyCommaJoin emphasis_areas,
  "                6. Incorporate case studies and references strategically",
  "                7. Differentiate from competitors: " ++
      pyCommaJoin (s.competitors.filter (fun c => c != "")),
  "                8. Structure the proposal to maximize evaluation scores",
  "",
  "                Required Proposal Structure:",
  "                - Executive Summary",
  "                - Company Overview & Relevant Experience",
  "                - Understanding of Requirements",
  "                - Proposed Solution",
  "                - Technical Approach",
  "                - Project Timeline & Milestones",
  "                - Team Composition",
  "                - Case Studies & References",
  "                - Pricing Strategy (if applicable)",
  "                - Differentiators vs Competitors",
  "                - Risk Management",
  "                - Conclusion & Next Steps"]

/-- User content of stage 2 (`proposal_prompt`). -/
def proposalUserPrompt (s : SessionState) : String :=
  "\n                COMPANY INFORMATION:\n                " ++
  companyDetailsToUse s ++
  "\n                \n                COMPETITORS: " ++
  pyCommaJoin (s.competitors.filter (fun c => c != "")) ++
  "\n                \n                RFP SCOPE ANALYSIS:\n                " ++
  pyStr s.scope_analysis ++
  "\n                \n                Please create a comprehensive winning proposal that addresses all RFP requirements while highlighting our competitive advantages and relevant experience.\n                "

/-- System prompt of stage 3 (refinement). -/
def refineSystemPrompt : String :=
  "You are an expert proposal editor. Refine the provided proposal based on the specific refinement requests while maintaining its professional quality and structure."

/-- User content of stage 3 (`refinement_prompt`), embedding the current draft
and the new refinement request. -/
def refinementUserPrompt (s : SessionState) (refinement_request : String) : String :=
  "\n                    ORIGINAL PROPOSAL:\n                    " ++
  pyStr s.winning_proposal ++
  "\n                    \n                    REFINEMENT REQUEST:\n                    " ++
  refinement_request ++
  "\n                    \n                    Please provide an improved version of the proposal that addresses the refinement request while keeping all the original strengths and structure.\n                    "

/-- Warning of the Agent 2 tab when no RFP document has been uploaded. -/
def warnUploadFirst : String :=
  "Please upload an RFP document in the " ++ sq ++ "Agent 1 - Company Details" ++
    sq ++ " tab first."

/-- Warning of the Agent 3 tab when its precondition fails. -/
def warnCompleteFirst : String :=
  "Please complete both Agent 1 (Company Details) and Agent 2 (RFP Analysis) first."

/-- Warning of the Final Proposal tab when no proposal has been generated. -/
def warnGenerateFirst : String :=
  "Please generate a proposal in the " ++ sq ++
    "Agent 3 - Winning Proposal Generation" ++ sq ++ " tab first."

/-- A user action that does nothing: state kept, nothing shown, no call. -/
def noStep (s : SessionState) : StepResult :=
  { state := s, displayed := [], raised := none, calls := 0, exports := [] }

/-- Outcome of `extract_company_details`: the returned value (None when the
model call failed), what was displayed, an escaped exception if any, and the
number of exchanges performed. -/
structure ExtractResult where
  result : Option String
  displayed : List String
  raised : Option String
  calls : Nat
deriving DecidableEq

/-- Embedding of `extract_company_details(company_info_text)`: the statement
`llm, messages = create_agent(system_prompt)` unpacks the returned value,
raising TypeError when `create_agent` returned None (credential absent);
otherwise one extraction exchange is run and its result returned (the
`if llm:` test is vacuously true once the unpack succeeded, since the
ChatOpenAI client object is always truthy). -/
def extract_company_details (env : Env) (company_info_text : String) :
    ExtractResult :=
  match create_agent env extractionSystemPrompt with
  | (none, msgs) =>
      { result := none, displayed := msgs,
        raised := some typeErrorUnpackNone, calls := 0 }
  | (some (llm, messages), msgs) =>
      let r := run_agent llm messages company_info_text
      { result := r.result, displayed := msgs ++ r.displayed,
        raised := none, calls := 1 }

/-- Body of the "Analyze RFP Scope" button (stage 1): unpack the adapter pair
(TypeError when None), run the exchange on the RFP content, and assign the
result — failed or not — to `scope_analysis`. -/
def analyzeScopeClick (env : Env) (s : SessionState) : StepResult :=
  match create_agent env agent2SystemPrompt with
  | (none, msgs) =>
      { state := s, displayed := msgs,
        raised := some typeErrorUnpackNone, calls := 0, exports := [] }
  | (some (llm, messages), msgs) =>
      let r := run_agent llm messages s.rfp_content
      { state := { s with scope_analysis := r.result },
        displayed := msgs ++ r.displayed, raised := none, calls := 1,
        exports := [] }

/-- The Agent 2 tab: warns when no RFP content is present; otherwise runs the
button body when pressed, and — when no exception escaped — offers the scope
analysis for download if truthy. -/
def agent2Tab (env : Env) (pressAnalyze : Bool) (s : SessionState) : StepResult :=
  if s.rfp_content == "" then
    { state := s, displayed := [warnUploadFirst], raised := none, calls := 0,
      exports := [] }
  else
    let step := if pressAnalyze then analyzeScopeClick env s else noStep s
    if step.raised == none then
      { step with exports :=
          match step.state.scope_analysis with
          | some a => if a != "" then [a] else []
          | none => [] }
    else step

/-- Body of the "Generate Winning Proposal" button (stage 2): unpack the
adapter pair (TypeError when None), run the exchange on the proposal prompt,
and assign the result — failed or not — to `winning_proposal`. -/
def generateProposalClick (env : Env) (proposal_tone : String)
    (emphasis_areas : List String) (s : SessionState) : StepResult :=
  match create_agent env (agent3SystemPrompt proposal_tone emphasis_areas s) with
  | (none, msgs) =>
      { state := s, displayed := msgs,
        raised := some typeErrorUnpackNone, calls := 0, exports := [] }
  | (some (llm, messages), msgs) =>
      let r := run_agent llm messages (proposalUserPrompt s)
      { state := { s with winning_proposal := r.result },
        displayed := msgs ++ r.displayed, raised := none, calls := 1,
        exports := [] }

/-- The Agent 3 tab: warns (and does nothing else) when the scope analysis is
falsy or the company name is falsy; otherwise runs the button body when
pressed, and — absent an escaped exception — offers the proposal for download
if truthy. -/
def agent3Tab (env : Env) (pressGenerate : Bool) (proposal_tone : String)
    (emphasis_areas : List String) (s : SessionState) : StepResult :=
  if !pyTruthy s.scope_analysis || s.company_details.company_name == "" then
    { state := s, displayed := [warnCompleteFirst], raised := none, calls := 0,
      exports := [] }
  else
    let step :=
      if pressGenerate then generateProposalClick env proposal_tone emphasis_areas s
      else noStep s
    if step.raised == none then
      { step with exports :=
          match step.state.winning_proposal with
          | some p => if p != "" then [p] else []
          | none => [] }
    else step

/-- The lightly templated markdown export of the Final tab
(`formatted_content`); the dict lookup default "Your Company" applies when the
name is absent, modelled as the empty string. -/
def formattedExport (s : SessionState) (proposal : String) : String :=
  "\n            RFP WINNING PROPOSAL\n            ====================\n            \n            Prepared for: " ++
  (if s.company_details.company_name == "" then "Your Company"
   else s.company_details.company_name) ++
  "\n            \n            " ++ proposal ++ "\n            "

/-- Body of the "Refine Proposal" button (stage 3): unpack the adapter pair
(TypeError when None), run the refinement exchange on the current draft, and
replace the draft only when the returned value is truthy. -/
def refineProposalClick (env : Env) (refinement_request : String)
    (s : SessionState) : StepResult :=
  match create_agent env refineSystemPrompt with
  | (none, msgs) =>
      { state := s, displayed := msgs,
        raised := some typeErrorUnpackNone, calls := 0, exports := [] }
  | (some (llm, messages), msgs) =>
      let r := run_agent llm messages (refinementUserPrompt s refinement_request)
      match r.result with
      | some refined =>
          if refined != "" then
            { state := { s with winning_proposal := some refined },
              displayed := msgs ++ r.displayed ++ ["Proposal refined successfully!"],
              raised := none, calls := 1, exports := [] }
          else
            { state := s, displayed := msgs ++ r.displayed, raised := none,
              calls := 1, exports := [] }
      | none =>
          { state := s, displayed := msgs ++ r.displayed, raised := none,
            calls := 1, exports := [] }

/-- The Final Proposal tab: warns (and offers nothing) when the proposal is
falsy; otherwise runs the refinement body when the button is pressed with a
truthy request, and — absent an escaped exception — offers the raw-text and
templated exports of the current draft. -/
def finalTab (env : Env) (pressRefine : Bool) (refinement_request : String)
    (s : SessionState) : StepResult :=
  if !pyTruthy s.winning_proposal then
    { state := s, displayed := [warnGenerateFirst], raised := none, calls := 0,
      exports := [] }
  else
    let step :=
      if pressRefine && refinement_request != "" then
        refineProposalClick env refinement_request s
      else noStep s
    if step.raised == none then
      { step with exports :=
          match step.state.winning_proposal with
          | some p => [p, formattedExport step.state p]
          | none => [] }
    else step

/-! Concrete fixtures used by the theorems below. -/

/-- A company-details dict with all fields empty. -/
def cd0 : CompanyDetails := ⟨"", "", "", "", ""⟩

/-- The session state right after initialization: empty profile, no RFP text,
`scope_analysis = {}` (falsy), `winning_proposal = ""`, one empty competitor
slot. -/
def s0 : SessionState :=
  { company_details := cd0, rfp_content := "", scope_analysis := none,
    winning_proposal := some "", competitors := [""],
    company_info_extracted := false, extracted_company_details := none }

/-- An environment whose credential is set but whose every model exchange
raises (a simulated transport error). -/
def failEnv : Env :=
  { api_key := some "sk-test", invoke := fun _ => Except.error "boom" }

/-- An environment with no credential set. -/
def noKeyEnv : Env :=
  { api_key := none, invoke := fun _ => Except.ok "unreachable" }

/-- An environment whose credential is set and whose every exchange replies
with the text "Draft B". -/
def okEnv : Env :=
  { api_key := some "sk-test", invoke := fun _ => Except.ok "Draft B" }

/-- A mid-pipeline session state: RFP uploaded, scope analysed, proposal
drafted, company name filled in. -/
def sPre : SessionState :=
  { s0 with rfp_content := "RFP TEXT", scope_analysis := some "old analysis",
            winning_proposal := some "Draft A",
            company_details := { cd0 with company_name := "Acme" } }

/-! Claim theorems. -/

/-- Claim C4: any error thrown during the request/response exchange of a
`run_agent` invocation is caught inside the adapter, reported as a visible
message, and the adapter returns the absent result None instead of raising
(by construction `run_agent` is total, so nothing escapes). -/
theorem run_agent_catches_errors (invoke : LLMModel) (ms : List Message)
    (uc e : String) (h : invoke (ms ++ [Message.human uc]) = Except.error e) :
    (run_agent invoke ms uc).result = none ∧
    (run_agent invoke ms uc).displayed = ["Error calling the LLM: " ++ e] := by
  simp [run_agent, h]

/-- Witness for C4 at a concrete failing exchange. -/
theorem run_agent_catches_errors_witness :
    (run_agent (fun _ => Except.error "boom") [Message.system "sp"] "hi").result
        = none ∧
    (run_agent (fun _ => Except.error "boom") [Message.system "sp"] "hi").displayed
        = ["Error calling the LLM: " ++ "boom"] :=
  run_agent_catches_errors (fun _ => Except.error "boom") [Message.system "sp"]
    "hi" "boom" rfl

/-- Claim C9, amended: a single `run_agent` invocation performs exactly one
exchange whose payload, when the adapter is given the fresh one-element list
built by `create_agent`, is exactly the two messages instruction + user
content; however the adapter appends the user message to the very list the
caller handed it, so after the call the caller's list is the given list plus
the human message — not unchanged. -/
theorem run_agent_two_messages (invoke : LLMModel) (ms : List Message)
    (p uc : String) :
    (run_agent invoke ms uc).messages = ms ++ [Message.human uc] ∧
    (run_agent invoke [Message.system p] uc).messages
        = [Message.system p, Message.human uc] ∧
    ((run_agent invoke [Message.system p] uc).messages).length = 2 := by
  have key : ∀ l : List Message,
      (run_agent invoke l uc).messages = l ++ [Message.human uc] := by
    intro l
    unfold run_agent
    cases h : invoke (l ++ [Message.human uc]) <;> simp [h]
  refine ⟨key ms, ?_, ?_⟩
  · rw [key]; rfl
  · rw [key]; rfl

/-- Counterexample to C9 as stated: after the call the message list the
adapter was given is not unchanged. -/
theorem run_agent_mutates_messages_cex :
    (run_agent (fun _ => Except.ok "reply") [Message.system "sp"] "uc").messages
      ≠ [Message.system "sp"] := by decide

/-- Claim C3, amended: PDF and DOCX extraction never raise — empty documents
yield the empty string and parse failures yield the empty string plus a
visible error message — and an empty plain-text upload decodes to the empty
string; but the plain-text branch has no exception handler, so a UTF-8 decode
failure raises to the caller (see the counterexample). -/
theorem extraction_degrades_to_empty (p q : Except String (List String))
    (e : String) (s : SessionState) :
    (rfpUploadStep (UploadedDoc.pdf p) s).raised = none ∧
    (rfpUploadStep (UploadedDoc.docx q) s).raised = none ∧
    extract_text_from_pdf (Except.ok []) = ("", []) ∧
    extract_text_from_docx (Except.ok []) = ("", []) ∧
    extract_text_from_pdf (Except.error e) = ("", ["Error reading PDF: " ++ e]) ∧
    extract_text_from_docx (Except.error e) = ("", ["Error reading DOCX: " ++ e]) ∧
    (rfpUploadStep (UploadedDoc.plain []) s).state.rfp_content = "" ∧
    (rfpUploadStep (UploadedDoc.plain []) s).raised = none := by
  refine ⟨?_, ?_, rfl, rfl, rfl, rfl, rfl, rfl⟩
  · cases p <;> rfl
  · cases q <;> rfl

/-- Counterexample to C3 as stated: uploading a plain-text file whose bytes
are not valid UTF-8 raises UnicodeDecodeError to the caller instead of
yielding the empty string. -/
theorem plain_decode_raises_cex :
    (rfpUploadStep (UploadedDoc.plain [255]) s0).raised
      = some "UnicodeDecodeError" := by decide

/-- Claim C2 (code bug): with the credential absent, `create_agent` does show
the visible message, return None and attempt no exchange (zero calls), but the
call sites unpack its result with `llm, messages = create_agent(...)`, which
raises TypeError on None — the exception escapes to the top level instead of
the graceful refusal the spec (and the callers' own `if llm:` checks)
describe.  Shown at the stage-1 handler and at `extract_company_details`. -/
theorem missing_key_call_sites_raise :
    (agent2Tab noKeyEnv true sPre).displayed = [apiKeyErrorMsg] ∧
    (agent2Tab noKeyEnv true sPre).calls = 0 ∧
    (agent2Tab noKeyEnv true sPre).state = sPre ∧
    (agent2Tab noKeyEnv true sPre).raised = some typeErrorUnpackNone ∧
    (extract_company_details noKeyEnv "Acme company info").displayed
        = [apiKeyErrorMsg] ∧
    (extract_company_details noKeyEnv "Acme company info").calls = 0 ∧
    (extract_company_details noKeyEnv "Acme company info").raised
        = some typeErrorUnpackNone := by decide

/-- Claim C7: the competitor list starts as a single empty slot; adding
appends one empty string at the end, removing an index `i > 0` deletes
exactly that element preserving the order of the rest, index 0 is never
removable, and the list always keeps at least one slot. -/
theorem competitor_list_ops (cs : List String) (i : Nat) (h : cs ≠ []) :
    addCompetitor [""] = ["", ""] ∧
    removeCompetitor ["X", "Y", "Z"] 1 = ["X", "Z"] ∧
    removeCompetitor cs i ≠ [] ∧
    (removeCompetitor cs i).head? = cs.head? := by
  have key : removeCompetitor cs i ≠ [] ∧
      (removeCompetitor cs i).head? = cs.head? := by
    unfold removeCompetitor
    split
    · rename_i hc
      cases cs with
      | nil => exact absurd rfl h
      | cons x t =>
        cases i with
        | zero => exact absurd hc.1 (by omega)
        | succ j =>
          constructor
          · simp [List.eraseIdx]
          · simp [List.eraseIdx]
    · exact ⟨h, rfl⟩
  exact ⟨by decide, by decide, key.1, key.2⟩

/-- Witness for C7 on a concrete two-element list. -/
theorem competitor_list_ops_witness :
    addCompetitor [""] = ["", ""] ∧
    removeCompetitor ["X", "Y", "Z"] 1 = ["X", "Z"] ∧
    removeCompetitor ["A", "B"] 1 ≠ [] ∧
    (removeCompetitor ["A", "B"] 1).head? = (["A", "B"] : List String).head? :=
  competitor_list_ops ["A", "B"] 1 (by decide)

/-- Claim C1, amended: when every model exchange fails and the credential is
set, stage 3 (refinement) leaves the session state unchanged, since it checks
its result before assigning; but stage 1 and stage 2 assign the adapter's
absent result directly, so ScopeAnalysis (stage 1) and ProposalDraft
(stage 2) are each overwritten with None rather than keeping their pre-call
value. -/
theorem model_failure_stage_effects (env : Env) (s : SessionState)
    (proposal_tone : String) (emphasis_areas : List String) (req e : String)
    (hkey : pyTruthy env.api_key = true)
    (hfail : ∀ ms, env.invoke ms = Except.error e) :
    (analyzeScopeClick env s).state.scope_analysis = none ∧
    (generateProposalClick env proposal_tone emphasis_areas s).state.winning_proposal
        = none ∧
    (refineProposalClick env req s).state = s := by
  have hca : ∀ p, create_agent env p = (some (env.invoke, [Message.system p]), []) := by
    intro p; simp [create_agent, hkey]
  refine ⟨?_, ?_, ?_⟩ <;>
    simp [analyzeScopeClick, generateProposalClick, refineProposalClick, hca,
          run_agent, hfail]

/-- Witness for the amended C1 with a concrete always-failing environment. -/
theorem model_failure_stage_effects_witness :
    (analyzeScopeClick failEnv sPre).state.scope_analysis = none ∧
    (generateProposalClick failEnv "Professional" ["Technical Expertise"] sPre).state.winning_proposal
        = none ∧
    (refineProposalClick failEnv "R" sPre).state = sPre :=
  model_failure_stage_effects failEnv sPre "Professional" ["Technical Expertise"]
    "R" "boom" (by decide) (fun _ => rfl)

/-- Counterexample to C1 as stated: with ScopeAnalysis holding "old analysis"
before the call, a failing stage-1 model call does not leave it unchanged
(it becomes None). -/
theorem stage_failure_changes_scope_cex :
    (agent2Tab failEnv true sPre).state.scope_analysis ≠ sPre.scope_analysis := by
  decide

/-- Claim C5: stage 2 refuses to run when ScopeAnalysis is falsy or the
company name is falsy (state untouched, zero model calls, nothing offered for
download, only the warning shown), and the Final Proposal tab — stage 3
refinement and both final exports — refuses likewise when ProposalDraft is
falsy. -/
theorem stage_preconditions_gate (env : Env) (b b2 : Bool)
    (proposal_tone req : String) (emphasis_areas : List String)
    (s t : SessionState)
    (h2 : pyTruthy s.scope_analysis = false ∨ s.company_details.company_name = "")
    (h3 : pyTruthy t.winning_proposal = false) :
    (agent3Tab env b proposal_tone emphasis_areas s).state = s ∧
    (agent3Tab env b proposal_tone emphasis_areas s).calls = 0 ∧
    (agent3Tab env b proposal_tone emphasis_areas s).exports = [] ∧
    (agent3Tab env b proposal_tone emphasis_areas s).displayed = [warnCompleteFirst] ∧
    (finalTab env b2 req t).state = t ∧
    (finalTab env b2 req t).calls = 0 ∧
    (finalTab env b2 req t).exports = [] ∧
    (finalTab env b2 req t).displayed = [warnGenerateFirst] := by
  have hg : (!pyTruthy s.scope_analysis || s.company_details.company_name == "")
      = true := by
    rcases h2 with h | h
    · simp [h]
    · simp [h]
  have hg3 : (!pyTruthy t.winning_proposal) = true := by simp [h3]
  refine ⟨?_, ?_, ?_, ?_, ?_, ?_, ?_, ?_⟩ <;> simp [agent3Tab, finalTab, hg, hg3]

/-- Witness for C5 at the freshly initialized session state (empty scope
analysis, empty company name, empty proposal). -/
theorem stage_preconditions_gate_witness :
    (agent3Tab failEnv true "Professional" ["Experience"] s0).state = s0 ∧
    (agent3Tab failEnv true "Professional" ["Experience"] s0).calls = 0 ∧
    (agent3Tab failEnv true "Professional" ["Experience"] s0).exports = [] ∧
    (agent3Tab failEnv true "Professional" ["Experience"] s0).displayed
        = [warnCompleteFirst] ∧
    (finalTab failEnv true "R" s0).state = s0 ∧
    (finalTab failEnv true "R" s0).calls = 0 ∧
    (finalTab failEnv true "R" s0).exports = [] ∧
    (finalTab failEnv true "R" s0).displayed = [warnGenerateFirst] :=
  stage_preconditions_gate failEnv true true "Professional" "R" ["Experience"]
    s0 s0 (Or.inl (by decide)) (by decide)

/-- Claim C6: with ProposalDraft = "Draft A" and a non-empty refinement
request, a successful model response "Draft B" leaves ProposalDraft equal to
exactly "Draft B" — the whole resulting state is the old state with the draft
replaced, no concatenation or merge. -/
theorem refine_overwrites_draft (env : Env) (s : SessionState) (req : String)
    (hkey : pyTruthy env.api_key = true)
    (hdraft : s.winning_proposal = some "Draft A")
    (hreq : (req == "") = false)
    (hresp : ∀ ms, env.invoke ms = Except.ok "Draft B") :
    (finalTab env true req s).state = { s with winning_proposal := some "Draft B" } ∧
    (finalTab env true req s).state.winning_proposal = some "Draft B" := by
  have hca : ∀ p, create_agent env p = (some (env.invoke, [Message.system p]), []) := by
    intro p; simp [create_agent, hkey]
  have hgate : pyTruthy s.winning_proposal = true := by rw [hdraft]; decide
  have hmain : (finalTab env true req s).state
      = { s with winning_proposal := some "Draft B" } := by
    simp [finalTab, hgate, bne, hreq, refineProposalClick, hca, run_agent, hresp]
  exact ⟨hmain, by rw [hmain]⟩

/-- Witness for C6 with a concrete environment replying "Draft B". -/
theorem refine_overwrites_draft_witness :
    (finalTab okEnv true "R" sPre).state
        = { sPre with winning_proposal := some "Draft B" } ∧
    (finalTab okEnv true "R" sPre).state.winning_proposal = some "Draft B" :=
  refine_overwrites_draft okEnv sPre "R" (by decide) rfl (by decide)
    (fun _ => rfl)

/-- Claim C8: on the input "STRENGTHS:\nFast delivery\nCASE STUDIES:\nAcme
Corp 2019" the field-extraction heuristic appends (newline-terminated, never
replacing) "Fast delivery" to key_strengths and "Acme Corp 2019" to
past_case_studies, touches no other field (no cross-contamination), and a
non-header line seen before any section is set is silently dropped. -/
theorem extraction_heuristic_sections (cd : CompanyDetails) :
    (useExtractedDetails cd "STRENGTHS:\nFast delivery\nCASE STUDIES:\nAcme Corp 2019").key_strengths
        = cd.key_strengths ++ "Fast delivery" ++ "\n" ∧
    (useExtractedDetails cd "STRENGTHS:\nFast delivery\nCASE STUDIES:\nAcme Corp 2019").past_case_studies
        = cd.past_case_studies ++ "Acme Corp 2019" ++ "\n" ∧
    (useExtractedDetails cd "STRENGTHS:\nFast delivery\nCASE STUDIES:\nAcme Corp 2019").unique_selling_points
        = cd.unique_selling_points ∧
    (useExtractedDetails cd "STRENGTHS:\nFast delivery\nCASE STUDIES:\nAcme Corp 2019").industry_focus
        = cd.industry_focus ∧
    (useExtractedDetails cd "STRENGTHS:\nFast delivery\nCASE STUDIES:\nAcme Corp 2019").company_name
        = cd.company_name ∧
    useExtractedDetails cd "Fast delivery" = cd := by
  have hsplit : pySplitNl "STRENGTHS:\nFast delivery\nCASE STUDIES:\nAcme Corp 2019"
      = ["STRENGTHS:", "Fast delivery", "CASE STUDIES:", "Acme Corp 2019"] := by
    decide
  have hsplit2 : pySplitNl "Fast delivery" = ["Fast delivery"] := by decide
  have l1 : lineSection "STRENGTHS:" = some "strengths" := by decide
  have l2 : lineSection "Fast delivery" = none := by decide
  have l3 : lineSection "CASE STUDIES:" = some "case_studies" := by decide
  have l4 : lineSection "Acme Corp 2019" = none := by decide
  have e1 : ("strengths" == "strengths") = true := by decide
  have e2 : ("case_studies" == "strengths") = false := by decide
  have e3 : ("case_studies" == "case_studies") = true := by decide
  have e4 : ("" == "strengths") = false := by decide
  have e5 : ("" == "case_studies") = false := by decide
  have e6 : ("" == "usps") = false := by decide
  have e7 : ("" == "industry") = false := by decide
  have step : useExtractedDetails cd
        "STRENGTHS:\nFast delivery\nCASE STUDIES:\nAcme Corp 2019"
      = { cd with key_strengths := cd.key_strengths ++ "Fast delivery" ++ "\n",
                  past_case_studies :=
                    cd.past_case_studies ++ "Acme Corp 2019" ++ "\n" } := by
    unfold useExtractedDetails
    rw [hsplit]
    simp only [List.foldl, applyLine, appendToSection, l1, l2, l3, l4,
               e1, e2, e3, if_true, if_false]
    simp
  have step2 : useExtractedDetails cd "Fast delivery" = cd := by
    unfold useExtractedDetails
    rw [hsplit2]
    simp only [List.foldl, applyLine, appendToSection, l2,
               e4, e5, e6, e7, if_false]
    simp
  refine ⟨?_, ?_, ?_, ?_, ?_, step2⟩ <;> rw [step]

/-- Claim C10: a line whose upper-cased text matches any keyword group only
switches the section — its text is never appended to a profile field; and
matching has the fixed elif precedence: any line containing "STRENGTHS" goes
to the strengths group no matter what else it contains, and the concrete
multi-group lines below each switch to the first matching group in the order
strengths, case studies, unique selling, industry. -/
theorem header_precedence (cd : CompanyDetails) (cur line l : String)
    (h : (lineSection line).isSome = true)
    (hl : pyIn "STRENGTHS" (pyUpper l) = true) :
    (applyLine (cd, cur) line).1 = cd ∧
    applyLine (cd, cur) l = (cd, "strengths") ∧
    applyLine (cd, cur) "STRENGTHS CASE STUDIES UNIQUE SELLING INDUSTRY"
        = (cd, "strengths") ∧
    applyLine (cd, cur) "CASE STUDIES UNIQUE SELLING INDUSTRY"
        = (cd, "case_studies") ∧
    applyLine (cd, cur) "UNIQUE SELLING INDUSTRY" = (cd, "usps") ∧
    applyLine (cd, cur) "INDUSTRY EXPERTISE" = (cd, "industry") := by
  have g1 : lineSection "STRENGTHS CASE STUDIES UNIQUE SELLING INDUSTRY"
      = some "strengths" := by decide
  have g2 : lineSection "CASE STUDIES UNIQUE SELLING INDUSTRY"
      = some "case_studies" := by decide
  have g3 : lineSection "UNIQUE SELLING INDUSTRY" = some "usps" := by decide
  have g4 : lineSection "INDUSTRY EXPERTISE" = some "industry" := by decide
  refine ⟨?_, ?_, ?_, ?_, ?_, ?_⟩
  · cases hsec : lineSection line with
    | none => rw [hsec] at h; simp at h
    | some sec => simp [applyLine, hsec]
  · have hls : lineSection l = some "strengths" := by simp [lineSection, hl]
    simp [applyLine, hls]
  · simp [applyLine, g1]
  · simp [applyLine, g2]
  · simp [applyLine, g3]
  · simp [applyLine, g4]

/-- Witness for C10: the line "INDUSTRY STRENGTHS" matches both the industry
and the strengths groups and switches to strengths. -/
theorem header_precedence_witness :
    (applyLine (cd0, "") "STRENGTHS:").1 = cd0 ∧
    applyLine (cd0, "") "INDUSTRY STRENGTHS" = (cd0, "strengths") ∧
    applyLine (cd0, "") "STRENGTHS CASE STUDIES UNIQUE SELLING INDUSTRY"
        = (cd0, "strengths") ∧
    applyLine (cd0, "") "CASE STUDIES UNIQUE SELLING INDUSTRY"
        = (cd0, "case_studies") ∧
    applyLine (cd0, "") "UNIQUE SELLING INDUSTRY" = (cd0, "usps") ∧
    applyLine (cd0, "") "INDUSTRY EXPERTISE" = (cd0, "industry") :=
  header_precedence cd0 "" "STRENGTHS:" "INDUSTRY STRENGTHS" (by decide)
    (by decide)

end RfpApp
